import Mathlib

/-!
Shallow embedding of the `nooku` weather-driven audio rotation bot
(`src/weather.rs` and `src/main.rs`), together with theorems settling the
frozen specification claims.

Modelling conventions:
* Wall-clock UTC time is an `Int` counted in minutes since the Unix epoch,
  so the cooldown comparison `now - last_call > 10 minutes` from
  `weather.rs` keeps its exact shape.
* Local civil time is a record of hour/minute/second/nanosecond fields;
  chrono guarantees `hour < 24`, carried as a hypothesis where needed.
* The weather HTTP endpoint, the JSON layer and the decode collaborator are
  external; their behaviour at each call is an oracle value (`ApiResponse`,
  the `Json` tree, the opaque `Track` produced by `compress_song`).
* A Rust panic (an `unwrap` on `None`, or `Vec::remove` out of bounds) is a
  `panicked`/`none` outcome carrying the state mutated so far.
-/

namespace Nooku

/-- Weather classification, from `weather.rs` lines 12-18. -/
inductive Weather where
  | Clear
  | Rainy
  | Snowy
  | Unknown
deriving DecidableEq

/-- A `serde_json::Value` tree, as far as the program inspects it:
object-field lookup, array indexing, and rendering of the extracted id. -/
inductive Json where
  | null
  | bool (b : Bool)
  | num (n : Int)
  | str (s : String)
  | arr (elems : List Json)
  | obj (fields : List (String × Json))

/-- Object-field access, `serde_json::Value::get(&str)`: `Some` only on
objects that carry the field. -/
def Json.getField (j : Json) (key : String) : Option Json :=
  match j with
  | .obj fields => (fields.find? (fun f => f.1 == key)).map (·.2)
  | _ => none

/-- Array indexing, `serde_json::Value::get(usize)`: `Some` only on arrays
that are long enough. -/
def Json.getIdx (j : Json) (i : Nat) : Option Json :=
  match j with
  | .arr elems => elems.get? i
  | _ => none

/-- Leading fragment of `serde_json`'s `to_string` on the extracted id
value. Classification (`Weather::from_id`, `weather.rs` line 22) reads only
the first character, so for composite values only the opening delimiter of
their serialization matters. -/
def Json.render : Json → String
  | .null => "null"
  | .bool true => "true"
  | .bool false => "false"
  | .num n => toString n
  | .str s => "\"" ++ s ++ "\""
  | .arr _ => "["
  | .obj _ => "\x7b"

/-- Character-code classification, `weather.rs` lines 21-29:
`id.chars().nth(0).unwrap_or_default()` matched against leading digits. -/
def Weather.from_id (s : String) : Weather :=
  match s.data.head?.getD (Char.ofNat 0) with
  | '2' | '3' | '5' => Weather.Rainy
  | '6' => Weather.Snowy
  | '7' => Weather.Unknown
  | '8' => Weather.Clear
  | _ => Weather.Unknown

/-- `API_COOLDOWN` from `weather.rs` line 10, in minutes. -/
def API_COOLDOWN : Int := 10

/-- The mutable weather cache, `weather.rs` lines 37-41. `last_call` is in
minutes since the epoch. -/
structure WeatherData where
  last_call : Int
  cached_weather : Weather
  playing_weather : Weather
deriving DecidableEq

/-- What the external weather call yields on one invocation: a transport
error (`reqwest` error propagated by `?`), a body `serde_json` cannot
parse (the code substitutes the empty object), or a parsed JSON payload. -/
inductive ApiResponse where
  | netErr
  | badBody
  | payload (j : Json)

/-- Outcome of `get_weather` as seen by the caller: an `Ok` classification,
an `Err` propagated by `?`, or a panic inside the function. -/
inductive GWOutcome where
  | ok (w : Weather)
  | err
  | panics
deriving DecidableEq

/-- Result of one `get_weather` call: caller-visible outcome, the weather
cache afterwards (for a panic: at the moment of the panic), and whether the
external HTTP call was issued. -/
structure GWResult where
  outcome : GWOutcome
  wd : WeatherData
  fetched : Bool
deriving DecidableEq

/-- The id-extraction chain of `weather.rs` lines 71-78:
`json.get("weather").unwrap().get(0).unwrap().get("id").unwrap()`.
`none` means one of the unwraps panics. -/
def extractWeatherId (j : Json) : Option Json :=
  ((j.getField "weather").bind (fun w => w.getIdx 0)).bind
    (fun entry => entry.getField "id")

/-- Classification of a parsed response body (`weather.rs` lines 71-83):
extract `weather[0].id` (each failing `unwrap` is a panic), render it,
classify it, store it in the cache and return it. -/
def classifyBody (j : Json) (wd1 : WeatherData) : GWResult :=
  match extractWeatherId j with
  | none => ⟨.panics, wd1, true⟩
  | some idv =>
    let w := Weather.from_id idv.render
    ⟨.ok w, { wd1 with cached_weather := w }, true⟩

/-- `get_weather` from `weather.rs` lines 43-92. The location and API key
only shape the request URL, which is part of the `ApiResponse` oracle. If
the cooldown has elapsed, `last_call` is advanced to `now` before the
external call is issued; a parsed payload is classified and cached; a body
that fails to parse falls back to the empty object (`weather.rs` line 68),
whose id extraction panics. Inside the cooldown the cached classification
is returned unchanged (the source's exhaustive `match` on `cached_weather`
is the identity). -/
def get_weather (now : Int) (resp : ApiResponse) (wd : WeatherData) : GWResult :=
  let time_since_last_call := now - wd.last_call
  if time_since_last_call > API_COOLDOWN then
    let wd1 : WeatherData := { wd with last_call := now }
    match resp with
    | .netErr => ⟨.err, wd1, true⟩
    | .badBody => classifyBody (Json.obj []) wd1
    | .payload j => classifyBody j wd1
  else
    ⟨.ok wd.cached_weather, wd, false⟩

/-- Inside the cooldown, `get_weather` returns the cached classification,
issues no external call and leaves the cache untouched. -/
theorem get_weather_cooldown (now : Int) (resp : ApiResponse) (wd : WeatherData)
    (h : now - wd.last_call ≤ API_COOLDOWN) :
    get_weather now resp wd = ⟨.ok wd.cached_weather, wd, false⟩ := by
  unfold get_weather
  simp only [if_neg (by omega : ¬ now - wd.last_call > API_COOLDOWN)]

/-- Whenever `classifyBody` returns `Ok w`, the cached classification
afterwards is exactly `w`. -/
theorem classifyBody_ok_cached (j : Json) (wd1 : WeatherData) (w : Weather)
    (h : (classifyBody j wd1).outcome = .ok w) :
    (classifyBody j wd1).wd.cached_weather = w := by
  unfold classifyBody at h ⊢
  cases he : extractWeatherId j with
  | none => rw [he] at h; simp at h
  | some idv =>
    rw [he] at h
    dsimp only at h ⊢
    simp only [GWOutcome.ok.injEq] at h
    simp [← h]

/-- `classifyBody` never touches `playing_weather`. -/
theorem classifyBody_playing (j : Json) (wd1 : WeatherData) :
    (classifyBody j wd1).wd.playing_weather = wd1.playing_weather := by
  unfold classifyBody
  cases extractWeatherId j <;> rfl

/-- Whenever `get_weather` returns `Ok w`, the cache's classification
afterwards is exactly `w`. -/
theorem get_weather_ok_cached (now : Int) (resp : ApiResponse) (wd : WeatherData)
    (w : Weather) (h : (get_weather now resp wd).outcome = .ok w) :
    (get_weather now resp wd).wd.cached_weather = w := by
  unfold get_weather at h ⊢
  by_cases hc : now - wd.last_call > API_COOLDOWN
  · rw [if_pos hc] at h ⊢
    cases resp with
    | netErr => exact absurd h (by simp)
    | badBody => exact classifyBody_ok_cached _ _ _ h
    | payload j => exact classifyBody_ok_cached _ _ _ h
  · rw [if_neg hc] at h ⊢
    simp only [GWOutcome.ok.injEq] at h
    simp [← h]

/-- `get_weather` never touches `playing_weather`. -/
theorem get_weather_playing (now : Int) (resp : ApiResponse) (wd : WeatherData) :
    (get_weather now resp wd).wd.playing_weather = wd.playing_weather := by
  unfold get_weather
  by_cases hc : now - wd.last_call > API_COOLDOWN
  · rw [if_pos hc]
    cases resp with
    | netErr => rfl
    | badBody => exact classifyBody_playing _ _
    | payload j => exact classifyBody_playing _ _
  · rw [if_neg hc]

/-- Local civil wall-clock time, the fields of chrono's `Local::now()`
that the program reads. chrono guarantees `hour < 24`. -/
structure LocalTime where
  hour : Nat
  minute : Nat
  second : Nat
  nano : Nat
deriving DecidableEq

/-- Adding `Duration::hours(1)` to a civil time: the hour advances by one,
wrapping at midnight; the sub-hour fields are unchanged. -/
def LocalTime.addHour (t : LocalTime) : LocalTime :=
  { t with hour := (t.hour + 1) % 24 }

/-- The `with_minute(0).with_second(0).with_nanosecond(0)` chain of
`main.rs` lines 112-117 (each `with_*` of a valid `0` is `Some`). -/
def LocalTime.zeroSub (t : LocalTime) : LocalTime :=
  { t with minute := 0, second := 0, nano := 0 }

/-- Hour used by `get_key_next_hour` (`main.rs` lines 111-118): the hour of
`now + 1 hour` with minute/second/nanosecond zeroed. -/
def nextSlotHour (t : LocalTime) : Nat :=
  (t.addHour.zeroSub).hour

/-- Environment of one handler invocation: the UTC clock (minutes since
epoch), the local clock, the weather endpoint's behaviour for this call,
and whether the `Weak<Mutex<Call>>` back-reference still upgrades. -/
structure Env where
  utcNow : Int
  localTime : LocalTime
  resp : ApiResponse
  callAlive : Bool

/-- Hour rendering of `main.rs` lines 101-106 and 134-139: `to_string` of
the hour, left-padded with `'0'` below 10. -/
def padHour (hour : Nat) : String :=
  if hour < 10 then "0" ++ Nat.repr hour else Nat.repr hour

/-- Digit pushed for each classification (`main.rs` lines 89-94): Clear and
Unknown map to `'0'`, Rainy to `'1'`, Snowy to `'2'`. -/
def weatherDigit : Weather → Char
  | .Clear => '0'
  | .Rainy => '1'
  | .Snowy => '2'
  | .Unknown => '0'

/-- Result of one key-derivation call: the key (`none` when a panic inside
`get_weather` propagates), the weather cache afterwards, and whether an
external fetch happened. -/
structure KeyResult where
  key? : Option String
  wd : WeatherData
  fetched : Bool
deriving DecidableEq

/-- Key for a weather outcome and an hour value: the weather digit (with
the constant Clear fallback `'0'` on a fetch error, `main.rs` lines 95-98)
followed by the two hour characters. -/
def keyOfOutcome (o : GWOutcome) (hour : Nat) : Option String :=
  match o with
  | .ok w => some (String.singleton (weatherDigit w) ++ padHour hour)
  | .err => some (String.singleton '0' ++ padHour hour)
  | .panics => none

/-- `get_key_current_hour` from `main.rs` lines 84-108: refresh the
weather through `get_weather`, push the weather digit (a fetch error is
logged and defaults to the Clear digit), then push the 2-digit current
hour. -/
def get_key_current_hour (env : Env) (wd : WeatherData) : KeyResult :=
  let hour := env.localTime.hour
  let gw := get_weather env.utcNow env.resp wd
  ⟨keyOfOutcome gw.outcome hour, gw.wd, gw.fetched⟩

/-- `get_key_next_hour` from `main.rs` lines 110-141: same digit logic,
with the hour of `now + 1 hour` (minute/second/nanosecond zeroed). -/
def get_key_next_hour (env : Env) (wd : WeatherData) : KeyResult :=
  let hour := nextSlotHour env.localTime
  let gw := get_weather env.utcNow env.resp wd
  ⟨keyOfOutcome gw.outcome hour, gw.wd, gw.fetched⟩

/-- For every hour below 24, the rendered hour is exactly two characters. -/
theorem padHour_length (hour : Nat) (h : hour < 24) :
    (padHour hour).length = 2 := by
  interval_cases hour <;> decide

/-- Key derivation never touches `playing_weather`. -/
theorem get_key_current_hour_playing (env : Env) (wd : WeatherData) :
    (get_key_current_hour env wd).wd.playing_weather = wd.playing_weather :=
  get_weather_playing env.utcNow env.resp wd

/-- The cache returned by the current-hour key derivation is the cache
returned by the embedded `get_weather` call. -/
theorem get_key_current_hour_wd (env : Env) (wd : WeatherData) :
    (get_key_current_hour env wd).wd = (get_weather env.utcNow env.resp wd).wd :=
  rfl

/-- A decoded track (songbird `Compressed`). Decoding is an opaque external
operation; a track is identified by the path it was decoded from. -/
structure Track where
  path : String
deriving DecidableEq

/-- `compress_song` from `main.rs` lines 143-153, with the transcoding
collaborator opaque. -/
def compress_song (file_path : String) : Track :=
  ⟨file_path⟩

/-- `HashMap::get` on the song map, modelled as association-list lookup. -/
def mapGet (m : List (String × String)) (k : String) : Option String :=
  (m.find? (fun e => e.1 == k)).map (·.2)

/-- The shared mutable state of one session: the weather cache
(`WeatherCache`), the immutable catalog (`SongMap`, key to file path), the
prefetch buffer (`SongCache`, `vec_sources`), and the track currently
handed to the playback sink together with the key it was selected for. -/
structure SessionState where
  weather : WeatherData
  song_map : List (String × String)
  vec_sources : List (String × Track)
  active : Option (String × Track)
deriving DecidableEq

/-- Result of one handler invocation: normal completion (with whether
`play_only_source` replaced the active track during the step), or a panic,
in both cases carrying the state mutated so far. -/
inductive StepResult where
  | ok (s : SessionState) (swapped : Bool)
  | panicked (s : SessionState)
deriving DecidableEq

/-- The state held in a step result (for a panic: at the panic point). -/
def StepResult.state : StepResult → SessionState
  | .ok s _ => s
  | .panicked s => s

/-- Shared tail of `play` (`main.rs` lines 345-350) and `HourChange::act`
(lines 524-529): when the buffer is empty after the swap, derive the
next-slot key, decode its catalog entry (the `unwrap` on a missing key
panics) and push the pair. -/
def pushLookahead (env : Env) (s : SessionState) (swapped : Bool) : StepResult :=
  if s.vec_sources.isEmpty then
    let kr := get_key_next_hour env s.weather
    match kr.key? with
    | none => .panicked { s with weather := kr.wd }
    | some k2 =>
      match mapGet s.song_map k2 with
      | none => .panicked { s with weather := kr.wd }
      | some p2 =>
        .ok { s with weather := kr.wd,
                     vec_sources := [(k2, compress_song p2)] } swapped
  else .ok s swapped

/-- The `~play` command (`main.rs` lines 328-350), after a successful
join: pop the buffer's front (`Vec::remove(0)` panics when it is empty),
derive the current-slot key, and if the popped entry is stale pop one more
entry and decode the catalog entry for the fresh key (the `unwrap` on a
missing key panics); install the track, then refill the look-ahead slot.
The channel guards and the notification surface are external. -/
def playAct (env : Env) (s : SessionState) : StepResult :=
  match s.vec_sources with
  | [] => .panicked s
  | src :: rest =>
    let kr := get_key_current_hour env s.weather
    match kr.key? with
    | none => .panicked { s with vec_sources := rest, weather := kr.wd }
    | some k =>
      if src.1 = k then
        pushLookahead env
          { s with vec_sources := rest, weather := kr.wd, active := some src } true
      else
        let rest2 := rest.tail
        match mapGet s.song_map k with
        | none => .panicked { s with vec_sources := rest2, weather := kr.wd }
        | some p =>
          pushLookahead env
            { s with vec_sources := rest2, weather := kr.wd,
                     active := some (k, compress_song p) } true

/-- `HourChange::act` from `main.rs` lines 472-537: when the weak call
reference still upgrades, pop the buffer's front (`Vec::remove(0)` panics
when it is empty), recompute the current-slot key, decode fresh on a
mismatch (the `unwrap` on a missing catalog key panics), replace the
active track, record the cached classification as playing, and refill the
look-ahead slot. -/
def hourChangeAct (env : Env) (s : SessionState) : StepResult :=
  if env.callAlive then
    match s.vec_sources with
    | [] => .panicked s
    | src :: rest =>
      let kr := get_key_current_hour env s.weather
      match kr.key? with
      | none => .panicked { s with vec_sources := rest, weather := kr.wd }
      | some k =>
        let cont := fun (src' : String × Track) =>
          let wd2 := { kr.wd with playing_weather := kr.wd.cached_weather }
          pushLookahead env
            { s with vec_sources := rest, weather := wd2, active := some src' } true
        if k = src.1 then cont src
        else
          match mapGet s.song_map k with
          | none => .panicked { s with vec_sources := rest, weather := kr.wd }
          | some p => cont (k, compress_song p)
  else .ok s false

/-- `CheckWeather::act` from `main.rs` lines 422-460: recompute the
current-slot key (refreshing the cache), and when the refreshed
classification differs from the playing one, record it as playing and —
if the weak call reference still upgrades — decode the catalog entry for
the recomputed key (the `unwrap` on a missing key panics) and replace the
active track. -/
def checkWeatherAct (env : Env) (s : SessionState) : StepResult :=
  let kr := get_key_current_hour env s.weather
  match kr.key? with
  | none => .panicked { s with weather := kr.wd }
  | some k =>
    if kr.wd.cached_weather = kr.wd.playing_weather then
      .ok { s with weather := kr.wd } false
    else
      let wd2 := { kr.wd with playing_weather := kr.wd.cached_weather }
      if env.callAlive then
        match mapGet s.song_map k with
        | none => .panicked { s with weather := wd2 }
        | some p =>
          .ok { s with weather := wd2, active := some (k, compress_song p) } true
      else .ok { s with weather := wd2 } false

/-- The weather cache installed at startup (`main.rs` lines 185-189):
epoch `last_call`, Clear cached and playing classifications. -/
def initWeatherData : WeatherData :=
  { last_call := 0, cached_weather := .Clear, playing_weather := .Clear }

/-- Startup priming (`main.rs` lines 214-229): an empty song cache, one
current-slot key derivation, a catalog lookup (`unwrap` panics on a miss)
and one decoded entry pushed into the cache. -/
def primeAct (env : Env) (catalog : List (String × String)) : StepResult :=
  let s0 : SessionState :=
    { weather := initWeatherData, song_map := catalog,
      vec_sources := [], active := none }
  let kr := get_key_current_hour env s0.weather
  match kr.key? with
  | none => .panicked { s0 with weather := kr.wd }
  | some k =>
    match mapGet catalog k with
    | none => .panicked { s0 with weather := kr.wd }
    | some p =>
      .ok { s0 with weather := kr.wd,
                    vec_sources := [(k, compress_song p)] } false

/-- The three handlers that can fire after priming. -/
inductive Act where
  | play
  | hour
  | check

/-- Dispatch one handler invocation. -/
def runAct : Act → Env → SessionState → StepResult
  | .play => playAct
  | .hour => hourChangeAct
  | .check => checkWeatherAct

/-- States reachable from startup priming under any interleaving of the
`~play` command, `HourChange` firings and `CheckWeather` firings, with an
arbitrary environment at each step; the state a panic leaves behind is
also reachable. -/
inductive Reachable (catalog : List (String × String)) : SessionState → Prop where
  | prime (env : Env) : Reachable catalog (primeAct env catalog).state
  | step (a : Act) (env : Env) (s : SessionState) :
      Reachable catalog s → Reachable catalog (runAct a env s).state

/-- The ensure-current step inlined in `HourChange::act` (`main.rs` lines
490-500): pop the front unconditionally (`none` models the `Vec::remove(0)`
panic on an empty buffer), keep the popped entry when its key matches,
otherwise decode the catalog entry for the key (`none` models the `unwrap`
panic on a catalog miss). The `Nat` component counts `compress_song`
decodes performed. -/
def ensureCurrentHour (catalog : List (String × String))
    (buf : List (String × Track)) (k : String) :
    Option ((String × Track) × List (String × Track) × Nat) :=
  match buf with
  | [] => none
  | src :: rest =>
    if src.1 = k then some (src, rest, 0)
    else
      match mapGet catalog k with
      | none => none
      | some p => some ((k, compress_song p), rest, 1)

/-- The ensure-current step inlined in `play` (`main.rs` lines 328-337):
as in `HourChange::act`, except that on a stale front the buffer's next
entry (when present) is also discarded before decoding. -/
def ensureCurrentPlay (catalog : List (String × String))
    (buf : List (String × Track)) (k : String) :
    Option ((String × Track) × List (String × Track) × Nat) :=
  match buf with
  | [] => none
  | src :: rest =>
    if src.1 = k then some (src, rest, 0)
    else
      match mapGet catalog k with
      | none => none
      | some p => some ((k, compress_song p), rest.tail, 1)

/-- An OpenWeather-shaped payload with condition id 800 (clear sky). -/
def json800 : Json :=
  .obj [("weather", .arr [.obj [("id", .num 800)]])]

/-- A concrete cache with Rainy cached and an elapsed cooldown. -/
def wdRainy : WeatherData := ⟨0, .Rainy, .Clear⟩

/-- C1: a second `get_weather` call issued while the cooldown since the
first call's fetch has not elapsed performs no external call, returns the
same classification the first call returned, and leaves the cache (both
`last_call` and `cached_weather`) unchanged, so the pair performs at most
one external fetch. -/
theorem cooldown_pair_single_fetch (wd : WeatherData) (now₁ now₂ : Int)
    (r₁ r₂ : ApiResponse) (w : Weather)
    (h1 : (get_weather now₁ r₁ wd).outcome = .ok w)
    (h2 : now₂ - (get_weather now₁ r₁ wd).wd.last_call ≤ API_COOLDOWN) :
    get_weather now₂ r₂ (get_weather now₁ r₁ wd).wd =
      ⟨.ok w, (get_weather now₁ r₁ wd).wd, false⟩ ∧
    (get_weather now₁ r₁ wd).wd.cached_weather = w ∧
    ((if (get_weather now₁ r₁ wd).fetched then 1 else 0) +
      (if (get_weather now₂ r₂ (get_weather now₁ r₁ wd).wd).fetched then 1 else 0)
        ≤ 1) := by
  have hcd := get_weather_cooldown now₂ r₂ _ h2
  have hcw := get_weather_ok_cached now₁ r₁ wd w h1
  refine ⟨by rw [hcd, hcw], hcw, ?_⟩
  rw [hcd]
  split <;> simp

/-- C1 witness: a fetching first call (payload id 800, classified Clear)
followed five minutes later by a second call that is answered from the
cache. -/
theorem cooldown_pair_single_fetch_witness :
    get_weather 25 .netErr (get_weather 20 (.payload json800) wdRainy).wd =
      ⟨.ok .Clear, (get_weather 20 (.payload json800) wdRainy).wd, false⟩ :=
  (cooldown_pair_single_fetch wdRainy 20 25 (.payload json800) .netErr .Clear
    (by decide) (by decide)).1

/-- C10: when the cooldown has elapsed and the external call fails with a
network error, `last_call` has already been advanced to the current time,
so the error consumes the cooldown: the cache keeps the stale
classification, and every call within the following ten minutes returns it
without any external call or retry. -/
theorem net_error_consumes_cooldown (wd : WeatherData) (now : Int)
    (h : now - wd.last_call > API_COOLDOWN) :
    get_weather now .netErr wd = ⟨.err, { wd with last_call := now }, true⟩ ∧
    ∀ now' r', now' - now ≤ API_COOLDOWN →
      get_weather now' r' { wd with last_call := now } =
        ⟨.ok wd.cached_weather, { wd with last_call := now }, false⟩ := by
  constructor
  · unfold get_weather
    rw [if_pos h]
  · intro now' r' h'
    exact get_weather_cooldown now' r' _ h'

/-- C10 witness: the failed fetch at minute 100 stamps `last_call := 100`,
and a retry at minute 105 is served from the stale cache. -/
theorem net_error_consumes_cooldown_witness :
    get_weather 100 .netErr ⟨0, .Snowy, .Clear⟩ =
      ⟨.err, ⟨100, .Snowy, .Clear⟩, true⟩ ∧
    get_weather 105 .netErr ⟨100, .Snowy, .Clear⟩ =
      ⟨.ok .Snowy, ⟨100, .Snowy, .Clear⟩, false⟩ :=
  ⟨(net_error_consumes_cooldown ⟨0, .Snowy, .Clear⟩ 100 (by decide)).1,
   (net_error_consumes_cooldown ⟨0, .Snowy, .Clear⟩ 100 (by decide)).2
      105 .netErr (by decide)⟩

/-- The singleton string has length one. -/
theorem singleton_length (c : Char) : (String.singleton c).length = 1 := rfl

/-- C2: for every hour below 24 and every classification the weather layer
returns, both key derivations produce exactly the 3-character string made
of the weather digit (Clear and Unknown to '0', Rainy to '1', Snowy to
'2') followed by the zero-padded 2-digit hour — the current hour for the
current slot, the hour of now plus one hour with minute/second/nanosecond
zeroed for the next slot. -/
theorem key_shape (env : Env) (wd : WeatherData) (w : Weather)
    (hh : env.localTime.hour < 24)
    (hw : (get_weather env.utcNow env.resp wd).outcome = .ok w) :
    (get_key_current_hour env wd).key? =
      some (String.singleton (weatherDigit w) ++ padHour env.localTime.hour) ∧
    (get_key_next_hour env wd).key? =
      some (String.singleton (weatherDigit w) ++ padHour (nextSlotHour env.localTime)) ∧
    (String.singleton (weatherDigit w) ++ padHour env.localTime.hour).length = 3 ∧
    (String.singleton (weatherDigit w) ++ padHour (nextSlotHour env.localTime)).length = 3 ∧
    nextSlotHour env.localTime = (env.localTime.hour + 1) % 24 ∧
    weatherDigit .Clear = '0' ∧ weatherDigit .Unknown = '0' ∧
    weatherDigit .Rainy = '1' ∧ weatherDigit .Snowy = '2' := by
  have hnext : nextSlotHour env.localTime < 24 := Nat.mod_lt _ (by norm_num)
  refine ⟨?_, ?_, ?_, ?_, rfl, rfl, rfl, rfl, rfl⟩
  · unfold get_key_current_hour
    dsimp only
    rw [hw]
    rfl
  · unfold get_key_next_hour
    dsimp only
    rw [hw]
    rfl
  · rw [String.length_append, singleton_length, padHour_length _ hh]
  · rw [String.length_append, singleton_length, padHour_length _ hnext]

/-- Concrete environment for the key-shape witness: hour 5, inside the
cooldown. -/
def envK : Env := ⟨5, ⟨5, 30, 0, 0⟩, .netErr, true⟩

/-- C2 witness: with Rainy cached and hour 5, the current-slot key is the
Rainy digit followed by "05". -/
theorem key_shape_witness :
    (get_key_current_hour envK wdRainy).key? =
      some (String.singleton (weatherDigit .Rainy) ++ padHour 5) :=
  (key_shape envK wdRainy .Rainy (by decide) (by decide)).1

/-- Concrete environment for the fetch-error claims: elapsed cooldown,
network error, hour 3. -/
def envErr : Env := ⟨100, ⟨3, 0, 0, 0⟩, .netErr, true⟩

/-- C3 counterexample: with Rainy as the last cached classification and a
network error from the fetch, the derived key is "003" — the constant
Clear-digit fallback — and not "103", the key carrying the cached
classification's digit. -/
theorem fallback_counterexample :
    (get_key_current_hour envErr wdRainy).key? = some "003" ∧
    String.singleton (weatherDigit wdRainy.cached_weather) ++
      padHour envErr.localTime.hour = "103" ∧
    ("003" : String) ≠ "103" := by decide

/-- C3 as amended: when the weather fetch returns a network error, key
derivation does not abort; it falls back to the constant Clear digit '0'
(not the cached classification) and still returns a well-formed
3-character key. -/
theorem fallback_clear_digit (env : Env) (wd : WeatherData)
    (hr : env.resp = .netErr) (hh : env.localTime.hour < 24)
    (hc : env.utcNow - wd.last_call > API_COOLDOWN) :
    (get_key_current_hour env wd).key? =
      some (String.singleton '0' ++ padHour env.localTime.hour) ∧
    (String.singleton '0' ++ padHour env.localTime.hour).length = 3 := by
  constructor
  · unfold get_key_current_hour
    dsimp only
    have : (get_weather env.utcNow env.resp wd).outcome = .err := by
      rw [hr]
      unfold get_weather
      rw [if_pos hc]
    rw [this]
    rfl
  · rw [String.length_append, singleton_length, padHour_length _ hh]

/-- C3 witness: the amended fallback at the concrete error environment. -/
theorem fallback_clear_digit_witness :
    (get_key_current_hour envErr wdRainy).key? =
      some (String.singleton '0' ++ padHour 3) :=
  (fallback_clear_digit envErr wdRainy rfl (by decide) (by decide)).1

/-- C4 (code bug): whenever the response carries no extractable condition
code — an unparseable body, an empty object, or a parsed payload without
the weather array (such as an OpenWeather error document) — `get_weather`
panics in the `unwrap` chain instead of returning an error value. -/
theorem malformed_payload_panics :
    (get_weather 100 .badBody wdRainy).outcome = .panics ∧
    (get_weather 100 (.payload (Json.obj [])) wdRainy).outcome = .panics ∧
    (get_weather 100 (.payload (Json.obj [("cod", .num 401)])) wdRainy).outcome =
      .panics := by decide

/-- One handler step's effect on the prefetch buffer: some prefix of the
old buffer is consumed from the front, and at most one freshly decoded
entry is appended — and only onto an otherwise emptied buffer. -/
def bufferStep (old new : List (String × Track)) : Prop :=
  ∃ n app, app.length ≤ 1 ∧ new = old.drop n ++ app ∧
    (app ≠ [] → old.drop n = [])

/-- Leaving the buffer unchanged is a (trivial) front-first step. -/
theorem bufferStep_refl (l : List (String × Track)) : bufferStep l l :=
  ⟨0, [], by simp, by simp, fun h => absurd rfl h⟩

/-- Dropping the front entry is a front-first step. -/
theorem bufferStep_drop (l : List (String × Track)) (n : Nat) :
    bufferStep l (l.drop n) :=
  ⟨n, [], by simp, by simp, fun h => absurd rfl h⟩

/-- A front-first step never grows the buffer beyond two entries. -/
theorem bufferStep_length (old new : List (String × Track))
    (h : bufferStep old new) (hold : old.length ≤ 2) : new.length ≤ 2 := by
  obtain ⟨n, app, happ, hnew, hcond⟩ := h
  subst hnew
  by_cases h0 : app = []
  · subst h0
    simp only [List.append_nil, List.length_drop]
    omega
  · rw [hcond h0]
    simp only [List.nil_append]
    omega

/-- `pushLookahead` either leaves the buffer alone (a non-empty buffer, or
a panic while refilling) or pushes exactly one entry onto the empty
buffer. -/
theorem pushLookahead_sources (env : Env) (s : SessionState) (sw : Bool) :
    ((pushLookahead env s sw).state).vec_sources = s.vec_sources ∨
    (s.vec_sources = [] ∧
      ∃ e, ((pushLookahead env s sw).state).vec_sources = [e]) := by
  obtain ⟨wd, sm, buf, act⟩ := s
  cases buf with
  | nil =>
    rcases hk : (get_key_next_hour env wd).key? with _ | k2
    · left
      simp [pushLookahead, hk, StepResult.state]
    · rcases hm : mapGet sm k2 with _ | p2
      · left
        simp [pushLookahead, hk, hm, StepResult.state]
      · right
        refine ⟨rfl, (k2, compress_song p2), ?_⟩
        simp [pushLookahead, hk, hm, StepResult.state]
  | cons e rest =>
    left
    simp [pushLookahead, StepResult.state]

/-- Buffer effect of `pushLookahead`, as a front-first step relative to a
buffer the state was reached from by dropping `n` entries. -/
theorem pushLookahead_bufferStep (env : Env) (s : SessionState) (sw : Bool)
    (old : List (String × Track)) (n : Nat) (h : s.vec_sources = old.drop n) :
    bufferStep old ((pushLookahead env s sw).state).vec_sources := by
  rcases pushLookahead_sources env s sw with hsame | ⟨hemp, e, hone⟩
  · rw [hsame, h]
    exact bufferStep_drop old n
  · rw [hone]
    exact ⟨n, [e], by simp, by rw [← h, hemp]; simp, fun _ => by rw [← h, hemp]⟩

/-- The `~play` command consumes the buffer front-first and appends at
most one look-ahead entry. -/
theorem playAct_bufferStep (env : Env) (s : SessionState) :
    bufferStep s.vec_sources (((playAct env s).state).vec_sources) := by
  obtain ⟨wd, sm, buf, act⟩ := s
  cases buf with
  | nil => exact bufferStep_refl []
  | cons src rest =>
    rcases hk : (get_key_current_hour env wd).key? with _ | k
    · simp only [playAct, hk, StepResult.state]
      exact bufferStep_drop (src :: rest) 1
    · by_cases hsrc : src.1 = k
      · simp only [playAct, hk]
        rw [if_pos hsrc]
        exact pushLookahead_bufferStep env _ true (src :: rest) 1 rfl
      · simp only [playAct, hk]
        rw [if_neg hsrc]
        rcases hm : mapGet sm k with _ | p
        · simp only [hm, StepResult.state]
          have ht : rest.tail = (src :: rest).drop 2 := by cases rest <;> rfl
          rw [ht]
          exact bufferStep_drop (src :: rest) 2
        · simp only [hm]
          refine pushLookahead_bufferStep env _ true (src :: rest) 2 ?_
          cases rest <;> rfl

/-- `HourChange::act` consumes the buffer front-first and appends at most
one look-ahead entry. -/
theorem hourChangeAct_bufferStep (env : Env) (s : SessionState) :
    bufferStep s.vec_sources (((hourChangeAct env s).state).vec_sources) := by
  obtain ⟨wd, sm, buf, act⟩ := s
  by_cases hca : env.callAlive = true
  · unfold hourChangeAct
    rw [if_pos hca]
    cases buf with
    | nil => exact bufferStep_refl []
    | cons src rest =>
      rcases hk : (get_key_current_hour env wd).key? with _ | k
      · simp only [hk, StepResult.state]
        exact bufferStep_drop (src :: rest) 1
      · by_cases hsrc : k = src.1
        · simp only [hk]
          rw [if_pos hsrc]
          exact pushLookahead_bufferStep env _ true (src :: rest) 1 rfl
        · simp only [hk]
          rw [if_neg hsrc]
          rcases hm : mapGet sm k with _ | p
          · simp only [hm, StepResult.state]
            exact bufferStep_drop (src :: rest) 1
          · simp only [hm]
            exact pushLookahead_bufferStep env _ true (src :: rest) 1 rfl
  · unfold hourChangeAct
    rw [if_neg hca]
    exact bufferStep_refl _

/-- `CheckWeather::act` never touches the buffer. -/
theorem checkWeatherAct_bufferStep (env : Env) (s : SessionState) :
    bufferStep s.vec_sources (((checkWeatherAct env s).state).vec_sources) := by
  obtain ⟨wd, sm, buf, act⟩ := s
  rcases hk : (get_key_current_hour env wd).key? with _ | k
  · simp only [checkWeatherAct, hk]
    exact bufferStep_refl _
  · simp only [checkWeatherAct, hk]
    by_cases hw : (get_key_current_hour env wd).wd.cached_weather =
        (get_key_current_hour env wd).wd.playing_weather
    · rw [if_pos hw]
      exact bufferStep_refl _
    · rw [if_neg hw]
      by_cases hca : env.callAlive = true
      · rw [if_pos hca]
        rcases hm : mapGet sm k with _ | p
        · simp only [hm]
          exact bufferStep_refl _
        · simp only [hm]
          exact bufferStep_refl _
      · rw [if_neg hca]
        exact bufferStep_refl _

/-- Every handler step acts on the buffer front-first. -/
theorem runAct_bufferStep (a : Act) (env : Env) (s : SessionState) :
    bufferStep s.vec_sources (((runAct a env s).state).vec_sources) := by
  cases a with
  | play => exact playAct_bufferStep env s
  | hour => exact hourChangeAct_bufferStep env s
  | check => exact checkWeatherAct_bufferStep env s

/-- Startup priming leaves at most one entry in the buffer. -/
theorem primeAct_length (env : Env) (catalog : List (String × String)) :
    (((primeAct env catalog).state).vec_sources).length ≤ 1 := by
  simp only [primeAct]
  cases (get_key_current_hour env initWeatherData).key? with
  | none => simp [StepResult.state]
  | some k =>
    dsimp only
    cases mapGet catalog k with
    | none => simp [StepResult.state]
    | some p => simp [StepResult.state]

/-- C5: in every state reachable from startup priming through any sequence
of `~play`, `HourChange` and `CheckWeather` steps — panic remnants
included — the prefetch buffer holds at most 2 entries, and every further
handler step consumes it front-first (some front prefix is dropped, and at
most one fresh entry is appended, only onto an emptied buffer). -/
theorem prefetch_buffer_invariant (catalog : List (String × String))
    (s : SessionState) (h : Reachable catalog s) :
    s.vec_sources.length ≤ 2 ∧
    ∀ a env, bufferStep s.vec_sources (((runAct a env s).state).vec_sources) := by
  refine ⟨?_, fun a env => runAct_bufferStep a env s⟩
  induction h with
  | prime env => exact le_trans (primeAct_length env catalog) (by norm_num)
  | step a env s hr ih =>
    exact bufferStep_length _ _ (runAct_bufferStep a env s) ih

/-- Catalog and environment that make startup priming succeed. -/
def catPrime : List (String × String) := [("005", "songs/005-clear-5am.mp3")]

/-- Environment for the priming witness: hour 5, inside the cooldown. -/
def envPrime : Env := ⟨5, ⟨5, 0, 0, 0⟩, .netErr, true⟩

/-- C5 witness: the invariant evaluated at the concrete primed state. -/
theorem prefetch_buffer_invariant_witness :
    (((primeAct envPrime catPrime).state).vec_sources).length ≤ 2 :=
  (prefetch_buffer_invariant catPrime _ (Reachable.prime envPrime)).1

/-- Environment with a live call reference, hour 3, inside the cooldown. -/
def envLive : Env := ⟨5, ⟨3, 0, 0, 0⟩, .netErr, true⟩

/-- Session with an empty prefetch buffer whose catalog does hold the
current key "003". -/
def sEmptyBuf : SessionState :=
  { weather := ⟨0, .Clear, .Clear⟩,
    song_map := [("003", "songs/003-clear-3am.mp3")],
    vec_sources := [], active := none }

/-- C6 (code bug): when `HourChange` fires with an empty prefetch buffer
(and a live call), `Vec::remove(0)` panics before any key is recomputed or
any decode is attempted, even though the catalog holds the recomputed key
"003". -/
theorem hour_change_empty_buffer_panics :
    hourChangeAct envLive sEmptyBuf = .panicked sEmptyBuf ∧
    sEmptyBuf.vec_sources = [] ∧
    mapGet sEmptyBuf.song_map (String.singleton '0' ++ padHour 3) =
      some "songs/003-clear-3am.mp3" := by decide

/-- A stale decoded track for the catalog-miss scenario. -/
def trackStale : Track := ⟨"songs/003-clear-3am.mp3"⟩

/-- Hourly-trigger state whose recomputed key "103" (Rainy, hour 3) is
absent from the catalog. -/
def sHourMiss : SessionState :=
  { weather := ⟨0, .Rainy, .Rainy⟩,
    song_map := [("003", "songs/003-clear-3am.mp3")],
    vec_sources := [("003", trackStale)], active := some ("003", trackStale) }

/-- Loop-trigger state with drifted weather whose recomputed key "103" is
absent from the catalog. -/
def sCheckMiss : SessionState :=
  { weather := ⟨0, .Rainy, .Clear⟩,
    song_map := [("003", "songs/003-clear-3am.mp3")],
    vec_sources := [], active := some ("003", trackStale) }

/-- C7 (code bug): a swap attempt whose recomputed key "103" is absent
from the catalog panics in the `unwrap` on the failed lookup — in
`HourChange::act` after popping the front entry, and in
`CheckWeather::act` after recording the drifted classification — instead
of logging, keeping the previous active track and skipping the
transition. -/
theorem catalog_miss_panics :
    mapGet sHourMiss.song_map "103" = none ∧
    hourChangeAct envLive sHourMiss =
      .panicked { sHourMiss with vec_sources := [] } ∧
    checkWeatherAct envLive sCheckMiss =
      .panicked { sCheckMiss with weather := ⟨0, .Rainy, .Rainy⟩ } := by decide

/-- The next-hour key derivation never touches `playing_weather`. -/
theorem get_key_next_hour_playing (env : Env) (wd : WeatherData) :
    (get_key_next_hour env wd).wd.playing_weather = wd.playing_weather :=
  get_weather_playing env.utcNow env.resp wd

/-- A completed `pushLookahead` passes the swap flag through and never
touches `playing_weather`. -/
theorem pushLookahead_ok (env : Env) (s : SessionState) (sw : Bool)
    (s' : SessionState) (sw' : Bool) (h : pushLookahead env s sw = .ok s' sw') :
    sw' = sw ∧ s'.weather.playing_weather = s.weather.playing_weather := by
  simp only [pushLookahead] at h
  by_cases he : s.vec_sources.isEmpty = true
  · rw [if_pos he] at h
    rcases hk : (get_key_next_hour env s.weather).key? with _ | k2
    · rw [hk] at h
      simp at h
    · rw [hk] at h
      dsimp only at h
      rcases hm : mapGet s.song_map k2 with _ | p2
      · rw [hm] at h
        simp at h
      · rw [hm] at h
        injection h with h1 h2
        refine ⟨h2.symm, ?_⟩
        rw [← h1]
        exact get_key_next_hour_playing env s.weather
  · rw [if_neg he] at h
    injection h with h1 h2
    exact ⟨h2.symm, by rw [← h1]⟩

/-- C8 as amended: `playing_weather` is changed only upon observing
weather drift. `HourChange` changes it only when it swaps; `CheckWeather`
records the drifted classification before checking call liveness, so with
a dead call it changes it without any swap; the `~play` command and key
derivation itself never change it; a step that observes unchanged weather
leaves it untouched. -/
theorem playing_weather_update_discipline (env : Env) (s : SessionState)
    (s' : SessionState) (sw : Bool) :
    (hourChangeAct env s = .ok s' sw →
      s'.weather.playing_weather ≠ s.weather.playing_weather → sw = true) ∧
    (checkWeatherAct env s = .ok s' sw →
      s'.weather.playing_weather ≠ s.weather.playing_weather →
      (get_weather env.utcNow env.resp s.weather).wd.cached_weather ≠
        s.weather.playing_weather ∧ (env.callAlive = true → sw = true)) ∧
    (playAct env s = .ok s' sw →
      s'.weather.playing_weather = s.weather.playing_weather) ∧
    (get_key_current_hour env s.weather).wd.playing_weather =
      s.weather.playing_weather := by
  obtain ⟨wd, sm, buf, act⟩ := s
  refine ⟨?_, ?_, ?_, get_key_current_hour_playing env wd⟩
  · intro h hne
    by_cases hca : env.callAlive = true
    · unfold hourChangeAct at h
      rw [if_pos hca] at h
      cases buf with
      | nil => simp at h
      | cons src rest =>
        dsimp only at h
        rcases hk : (get_key_current_hour env wd).key? with _ | k
        · rw [hk] at h
          simp at h
        · rw [hk] at h
          dsimp only at h
          by_cases hsrc : k = src.1
          · rw [if_pos hsrc] at h
            exact (pushLookahead_ok _ _ _ _ _ h).1
          · rw [if_neg hsrc] at h
            rcases hm : mapGet sm k with _ | p
            · rw [hm] at h
              simp at h
            · rw [hm] at h
              exact (pushLookahead_ok _ _ _ _ _ h).1
    · unfold hourChangeAct at h
      rw [if_neg hca] at h
      injection h with h1 h2
      rw [← h1] at hne
      exact absurd rfl hne
  · intro h hne
    simp only [checkWeatherAct] at h
    rcases hk : (get_key_current_hour env wd).key? with _ | k
    · rw [hk] at h
      simp at h
    · rw [hk] at h
      dsimp only at h
      by_cases hwd : (get_key_current_hour env wd).wd.cached_weather =
          (get_key_current_hour env wd).wd.playing_weather
      · rw [if_pos hwd] at h
        injection h with h1 h2
        rw [← h1] at hne
        exact absurd (get_key_current_hour_playing env wd) hne
      · rw [if_neg hwd] at h
        have hdrift : (get_weather env.utcNow env.resp wd).wd.cached_weather ≠
            wd.playing_weather := by
          rw [get_key_current_hour_wd, get_weather_playing] at hwd
          exact hwd
        by_cases hca : env.callAlive = true
        · rw [if_pos hca] at h
          rcases hm : mapGet sm k with _ | p
          · rw [hm] at h
            simp at h
          · rw [hm] at h
            injection h with h1 h2
            exact ⟨hdrift, fun _ => h2.symm⟩
        · rw [if_neg hca] at h
          exact ⟨hdrift, fun hc => absurd hc hca⟩
  · intro h
    cases buf with
    | nil => simp [playAct] at h
    | cons src rest =>
      simp only [playAct] at h
      rcases hk : (get_key_current_hour env wd).key? with _ | k
      · rw [hk] at h
        simp at h
      · rw [hk] at h
        dsimp only at h
        by_cases hsrc : src.1 = k
        · rw [if_pos hsrc] at h
          have hp := (pushLookahead_ok _ _ _ _ _ h).2
          rw [hp]
          exact get_key_current_hour_playing env wd
        · rw [if_neg hsrc] at h
          rcases hm : mapGet sm k with _ | p
          · rw [hm] at h
            simp at h
          · rw [hm] at h
            have hp := (pushLookahead_ok _ _ _ _ _ h).2
            rw [hp]
            exact get_key_current_hour_playing env wd

/-- Environment whose weak call reference no longer upgrades. -/
def envDead : Env := ⟨5, ⟨3, 0, 0, 0⟩, .netErr, false⟩

/-- Session with drifted weather (Rainy cached, Clear playing). -/
def sDrift : SessionState :=
  { weather := ⟨0, .Rainy, .Clear⟩,
    song_map := [("103", "songs/103-rain-3am.mp3")],
    vec_sources := [], active := none }

/-- The drifted session after a `CheckWeather` firing with a dead call. -/
def sDriftMarked : SessionState :=
  { weather := ⟨0, .Rainy, .Rainy⟩,
    song_map := [("103", "songs/103-rain-3am.mp3")],
    vec_sources := [], active := none }

/-- C8 counterexample: a `CheckWeather` firing whose weak call reference
is dead updates `playing_weather` (Clear to Rainy) while replacing nothing
— the active track and the buffer are untouched and no swap occurs. -/
theorem playing_weather_counterexample :
    checkWeatherAct envDead sDrift = .ok sDriftMarked false ∧
    sDriftMarked.weather.playing_weather ≠ sDrift.weather.playing_weather ∧
    sDriftMarked.active = sDrift.active ∧
    sDriftMarked.vec_sources = sDrift.vec_sources := by decide

/-- C8 witness: the amended discipline applied to the dead-call drift
firing. -/
theorem playing_weather_update_discipline_witness :
    (get_weather envDead.utcNow envDead.resp sDrift.weather).wd.cached_weather ≠
      sDrift.weather.playing_weather ∧ (envDead.callAlive = true → false = true) :=
  (playing_weather_update_discipline envDead sDrift sDriftMarked false).2.1
    (by decide) (by decide)

/-- A decoded clear-weather 5am track. -/
def trackFive : Track := ⟨"songs/005-clear-5am.mp3"⟩

/-- Catalog holding only the key "005". -/
def catFive : List (String × String) := [("005", "songs/005-clear-5am.mp3")]

/-- C9 counterexample: on a buffer whose two entries are both keyed "005",
two consecutive ensure-current invocations with key "005" pop twice and
perform zero decodes in total, not exactly one — in both the
`HourChange::act` and the `play` inlining of the operation. -/
theorem ensure_current_counterexample :
    ensureCurrentHour catFive [("005", trackFive), ("005", trackFive)] "005" =
      some (("005", trackFive), [("005", trackFive)], 0) ∧
    ensureCurrentHour catFive [("005", trackFive)] "005" =
      some (("005", trackFive), [], 0) ∧
    ensureCurrentPlay catFive [("005", trackFive), ("005", trackFive)] "005" =
      some (("005", trackFive), [("005", trackFive)], 0) ∧
    ensureCurrentPlay catFive [("005", trackFive)] "005" =
      some (("005", trackFive), [], 0) ∧
    (0 + 0 : Nat) ≠ 1 :=
  ⟨by decide, by decide, by decide, by decide, by decide⟩

/-- C9 as amended: two consecutive ensure-current invocations with the
same key `k` perform exactly one decode in total in the prefetch
discipline's shape — the front entry is keyed `k`, a second entry with a
different key follows it, and `k` is in the catalog: the first invocation
pops the prefetched front without decoding and the second misses and
decodes once. (Other buffer shapes differ: two front entries keyed `k`
give zero decodes, and a buffer shorter than two entries makes the second
unconditional `Vec::remove(0)` pop panic.) -/
theorem ensure_current_single_decode (catalog : List (String × String))
    (k : String) (t : Track) (e : String × Track)
    (rest : List (String × Track)) (p : String)
    (hne : e.1 ≠ k) (hp : mapGet catalog k = some p) :
    ensureCurrentHour catalog ((k, t) :: e :: rest) k =
      some ((k, t), e :: rest, 0) ∧
    ensureCurrentHour catalog (e :: rest) k =
      some ((k, compress_song p), rest, 1) ∧
    ensureCurrentPlay catalog ((k, t) :: e :: rest) k =
      some ((k, t), e :: rest, 0) ∧
    ensureCurrentPlay catalog (e :: rest) k =
      some ((k, compress_song p), rest.tail, 1) ∧
    (0 + 1 : Nat) = 1 := by
  refine ⟨?_, ?_, ?_, ?_, rfl⟩ <;>
    simp [ensureCurrentHour, ensureCurrentPlay, hne, hp]

/-- C9 witness: the amended property at a concrete buffer holding the
"005" entry in front of a differently keyed "105" entry. -/
theorem ensure_current_single_decode_witness :
    ensureCurrentHour catFive [("105", trackFive)] "005" =
      some (("005", compress_song "songs/005-clear-5am.mp3"), [], 1) :=
  (ensure_current_single_decode catFive "005" trackFive ("105", trackFive) []
    "songs/005-clear-5am.mp3" (by decide) (by decide)).2.1

end Nooku
